import Mathlib

/-!
Shallow embedding of the lease-guarded replica-sync core of `dirt.py`
(repository alexlance/dirtycrm).

The embedded functions are `acquire_lock`, `release_lock`, `is_lock_stale`,
`fetch_db_from_s3`, `make_s3_backup`, `put_db_to_s3` and the `__main__`
orchestration block (here `runSession`).  Object storage is modelled as a
record with one slot per live key family (the lock object, the canonical
database object, the dated backup objects); every S3 call takes an optional
injected fault standing for a storage/network failure of that call.
Observable behaviour is collected as a trace of events; console prints that
no claim mentions (the "Lock acquired"/"Created backup" messages) are not
recorded in the trace.

`LOCK_TTL` is read by the program from the environment with
`os.environ.get`, so its runtime value is a Python *string*; the comparison
`age > LOCK_TTL` in `is_lock_stale` therefore compares an `int` with a
`str`.  To keep that faithful, the TTL is modelled as a dynamically typed
Python value (`PyVal`) and `>` as the dynamically typed `pyGT`, which
raises `TypeError` on an `int`/`str` comparison exactly as Python 3 does.
-/

namespace Dirt

/-- Byte strings (file and object bodies) are modelled as lists of bytes. -/
abbrev Bytes := List Nat

/-- The body `b'locked'` written into the lease object by `acquire_lock`. -/
def lockedBody : Bytes := [108, 111, 99, 107, 101, 100]

/-- A Python-level error: a botocore `ClientError` carrying its error code,
the `TypeError` raised by comparing incompatible types, or any other
exception. -/
inductive PyErr where
  | clientError (code : String)
  | typeError
  | otherError (msg : String)
  deriving Repr, DecidableEq

/-- A dynamically typed Python value, as far as the program needs them:
integers and strings. -/
inductive PyVal where
  | int (n : Int)
  | str (s : String)
  deriving Repr, DecidableEq

/-- Python's `>` operator: defined on `int`/`int` and `str`/`str`, raises
`TypeError` on a mixed comparison (Python 3 semantics). -/
def pyGT : PyVal → PyVal → Except PyErr Bool
  | .int a, .int b => .ok (decide (b < a))
  | .str a, .str b => .ok (decide (b < a))
  | _, _ => .error .typeError

/-- The lease object stored at `LOCK_KEY`: body `b'locked'` plus the
`created` metadata entry (integer epoch seconds). -/
structure LeaseObj where
  body : Bytes
  created : Nat
  deriving Repr, DecidableEq

/-- The S3 bucket, restricted to the keys the program touches: the lock
object at `LOCK_KEY`, the canonical database object at `DB_FILE`, and the
dated backup objects at `DB_FILE.{day}` (an association list keyed by
day-of-year). -/
structure S3State where
  lock : Option LeaseObj
  canonical : Option Bytes
  backups : List (Nat × Bytes)
  deriving Repr, DecidableEq

/-- `s3.put_object(..., IfNoneMatch='*')` on the lock key: an injected
fault raises; otherwise the put succeeds only if no object exists at the
key, failing with the `PreconditionFailed` client error if one does
(atomic create-if-absent). -/
def put_if_none_match (st : S3State) (now : Nat) (fault : Option PyErr) :
    Except PyErr S3State :=
  match fault with
  | some e => .error e
  | none =>
    match st.lock with
    | some _ => .error (.clientError "PreconditionFailed")
    | none => .ok { st with lock := some { body := lockedBody, created := now } }

/-- `acquire_lock()`: attempts the conditional put with
`created` metadata set to the current time; returns `true` on success,
`false` on the `PreconditionFailed` client error ("Lock already held"),
and re-raises every other error. -/
def acquire_lock (st : S3State) (now : Nat) (fault : Option PyErr) :
    Except PyErr (Bool × S3State) :=
  match put_if_none_match st now fault with
  | .ok st' => .ok (true, st')
  | .error (.clientError code) =>
    if code = "PreconditionFailed" then .ok (false, st)
    else .error (.clientError code)
  | .error e => .error e

/-- `release_lock()`: `s3.delete_object` on the lock key; deleting an
absent object is not an error, so this is total and idempotent. -/
def release_lock (st : S3State) : S3State :=
  { st with lock := none }

/-- `is_lock_stale()`: `head_object` on the lock key (a missing object, or
any injected `ClientError`, is caught by the `except ClientError` handler
and yields `false`); otherwise the lease age `now - created` is compared
with the global `LOCK_TTL` by Python `>`.  A `TypeError` from that
comparison is not a `ClientError` and propagates. -/
def is_lock_stale (st : S3State) (now : Nat) (lockTTL : PyVal)
    (headFault : Option PyErr) : Except PyErr Bool :=
  match headFault with
  | some (.clientError _) => .ok false
  | some e => .error e
  | none =>
    match st.lock with
    | none => .ok false
    | some lk => pyGT (.int ((now : Int) - (lk.created : Int))) lockTTL

/-- The local ephemeral replica file: its byte content and whether the
written data has been flushed. -/
structure LocalFile where
  content : Bytes
  flushed : Bool
  deriving Repr, DecidableEq

/-- `fetch_db_from_s3(temp)`: `get_object` on the canonical key (a missing
object raises `NoSuchKey`; an injected fault raises), then the full body is
written to the temp file and flushed before returning. -/
def fetch_db_from_s3 (st : S3State) (fault : Option PyErr) :
    Except PyErr LocalFile :=
  match fault with
  | some e => .error e
  | none =>
    match st.canonical with
    | none => .error (.clientError "NoSuchKey")
    | some bytes => .ok { content := bytes, flushed := true }

/-- Write (or overwrite) the backup object keyed by `day`. -/
def setBackup (bs : List (Nat × Bytes)) (day : Nat) (content : Bytes) :
    List (Nat × Bytes) :=
  (day, content) :: bs.filter (fun p => p.1 ≠ day)

/-- `make_s3_backup()`: server-side `copy_object` from the canonical key to
`DB_FILE.{day_of_year}`.  An injected fault raises; copying from a missing
canonical object raises `NoSuchKey`; on success the function returns
`True`.  No path returns `False`. -/
def make_s3_backup (st : S3State) (day : Nat) (fault : Option PyErr) :
    Except PyErr (Bool × S3State) :=
  match fault with
  | some e => .error e
  | none =>
    match st.canonical with
    | none => .error (.clientError "NoSuchKey")
    | some bytes => .ok (true, { st with backups := setBackup st.backups day bytes })

/-- Observable events of one session, in program order. -/
inductive Event where
  | fetchCall (ok : Bool)
  | connect
  | handlerCall (result : Option Bool)
  | closeConn
  | backupCall (result : Option Bool)
  | storeCall (ok : Bool)
  | releaseCall
  | staleCheck (result : Option Bool)
  | printed (s : String)
  deriving Repr, DecidableEq

/-- `put_db_to_s3(local_db_file)`: run `make_s3_backup`; if it raised, the
error propagates and nothing else happens.  If it returned truthily, the
local file is uploaded over the canonical key (`upload_file`; an injected
fault raises after the backup was already made).  The `else` branch prints
"ERROR CANT MAKE BACKUP" without uploading.  Returns the emitted events,
the resulting bucket state, and the propagated error if any. -/
def put_db_to_s3 (st : S3State) (localContent : Bytes) (day : Nat)
    (backupFault storeFault : Option PyErr) :
    List Event × S3State × Option PyErr :=
  match make_s3_backup st day backupFault with
  | .error e => ([.backupCall none], st, some e)
  | .ok (b, st1) =>
    if b then
      match storeFault with
      | some e => ([.backupCall (some b), .storeCall false], st1, some e)
      | none =>
          ([.backupCall (some b), .storeCall true],
           { st1 with canonical := some localContent }, none)
    else
      ([.backupCall (some b), .printed "ERROR CANT MAKE BACKUP"], st1, none)

/-- The environment of one invocation: the clock, the day of year, the
value of the `LOCK_TTL` global (a string in the program, since it comes
from `os.environ.get`), the behaviour of the external command handler
`main(db)` (its `needs_sync` result, or the error it raised), the local
replica's content after the handler ran, and per-call injected storage
faults. -/
structure Env where
  now : Nat
  day : Nat
  lockTTL : PyVal
  acquireFault : Option PyErr
  fetchFault : Option PyErr
  handler : Except PyErr Bool
  localAfterHandler : Bytes
  backupFault : Option PyErr
  storeFault : Option PyErr
  headFault : Option PyErr

/-- Result of one session: the event trace, the final bucket state, and
whether the process fell off the end normally or an exception escaped. -/
structure SessionResult where
  trace : List Event
  state : S3State
  outcome : Except PyErr Unit
  deriving Repr

/-- The process exit status: 0 on normal completion, 1 when an uncaught
exception terminates the interpreter. -/
def exitCode (r : SessionResult) : Nat :=
  match r.outcome with
  | .ok _ => 0
  | .error _ => 1

/-- The `__main__` block after configuration loading.  On a successful
`acquire_lock` the `try` body fetches the canonical database into a temp
file, opens a connection against it, runs `main(db)`, and if the handler
reported a mutation closes the connection and calls `put_db_to_s3`; the
`finally` clause calls `release_lock` on every one of those paths.  On a
denied acquire ("Lock already held" is printed inside `acquire_lock`),
`is_lock_stale` decides between the stale branch (print and
`release_lock`) and the retry-later message; no fetch, handler run, backup
or store happens there. -/
def runSession (env : Env) (st : S3State) : SessionResult :=
  match acquire_lock st env.now env.acquireFault with
  | .error e => { trace := [], state := st, outcome := .error e }
  | .ok (false, st1) =>
    match is_lock_stale st1 env.now env.lockTTL env.headFault with
    | .error e =>
        { trace := [.printed "Lock already held", .staleCheck none],
          state := st1, outcome := .error e }
    | .ok true =>
        { trace := [.printed "Lock already held", .staleCheck (some true),
            .printed "lock is stale, releasing... try again", .releaseCall],
          state := release_lock st1, outcome := .ok () }
    | .ok false =>
        { trace := [.printed "Lock already held", .staleCheck (some false),
            .printed "Database in S3 is in use/locked, try again in 120 seconds"],
          state := st1, outcome := .ok () }
  | .ok (true, st1) =>
    match fetch_db_from_s3 st1 env.fetchFault with
    | .error e =>
        { trace := [.fetchCall false, .releaseCall],
          state := release_lock st1, outcome := .error e }
    | .ok _file =>
      match env.handler with
      | .error e =>
          { trace := [.fetchCall true, .connect, .handlerCall none, .releaseCall],
            state := release_lock st1, outcome := .error e }
      | .ok false =>
          { trace := [.fetchCall true, .connect, .handlerCall (some false),
              .releaseCall],
            state := release_lock st1, outcome := .ok () }
      | .ok true =>
        match put_db_to_s3 st1 env.localAfterHandler env.day
            env.backupFault env.storeFault with
        | (ptr, st2, err?) =>
            { trace := [.fetchCall true, .connect, .handlerCall (some true),
                .closeConn] ++ ptr ++ [.releaseCall],
              state := release_lock st2,
              outcome := match err? with
                | some e => .error e
                | none => .ok () }

/-- A sequence of `acquire_lock` attempts against the same bucket with no
intervening release: each attempt is one atomic conditional put, so any
interleaving of concurrent attempts is some such sequence.  Each entry is
an attempt's clock value and injected fault; the result records `some b`
for a returned boolean and `none` for a raised error (a raised attempt
leaves the bucket unchanged). -/
def acquireRun : S3State → List (Nat × Option PyErr) → List (Option Bool)
  | _, [] => []
  | st, (t, f) :: rest =>
    match acquire_lock st t f with
    | .ok (b, st') => some b :: acquireRun st' rest
    | .error _ => none :: acquireRun st rest

/-! ### Concrete fixtures used by witnesses and counterexamples -/

/-- Sample canonical database bytes. -/
def sampleBytes : Bytes := [1, 2, 3]

/-- A bucket with no lease held and a canonical database present. -/
def stFree : S3State :=
  { lock := none, canonical := some sampleBytes, backups := [] }

/-- A bucket whose lease was created at epoch 1000, canonical database
present. -/
def stHeld : S3State :=
  { lock := some { body := lockedBody, created := 1000 },
    canonical := some sampleBytes, backups := [] }

/-- A fault-free environment: clock at 2000, day-of-year 5, the TTL global
holding the string read from `DIRTY_LOCK_TTL`, handler reporting a
mutation. -/
def envOk : Env :=
  { now := 2000, day := 5, lockTTL := .str "120", acquireFault := none,
    fetchFault := none, handler := .ok true, localAfterHandler := [9, 9],
    backupFault := none, storeFault := none, headFault := none }

/-- A bucket with no lease and no canonical database object. -/
def stEmpty : S3State := { lock := none, canonical := none, backups := [] }

/-- The fault-free environment with the TTL global holding the integer
120 (the value the comparison in `is_lock_stale` needs to not crash):
against `stHeld` the lease age 1000 exceeds it, so the lease is stale. -/
def envStale : Env := { envOk with lockTTL := .int 120 }

/-- Like `envStale` but with a TTL of 100000 seconds, making the lease in
`stHeld` fresh (held, not stale). -/
def envFresh : Env := { envOk with lockTTL := .int 100000 }

/-- The fault-free environment whose command handler reports no
mutation. -/
def envNoMut : Env := { envOk with handler := .ok false }

/-- Checks that every `storeCall` event in a trace is immediately preceded
by a `backupCall` that returned success. -/
def storeGatedOnBackup : List Event → Bool
  | [] => true
  | .backupCall (some true) :: .storeCall _ :: rest => storeGatedOnBackup rest
  | .storeCall _ :: _ => false
  | _ :: rest => storeGatedOnBackup rest

/-- Checks that every `connect` event in a trace is immediately preceded
by a successfully returned fetch. -/
def connectImmediatelyAfterFetch : List Event → Bool
  | [] => true
  | .fetchCall true :: .connect :: rest => connectImmediatelyAfterFetch rest
  | .connect :: _ => false
  | _ :: rest => connectImmediatelyAfterFetch rest

/-- `true` iff the trace contains no backup call and no store call. -/
def noSyncEvents (tr : List Event) : Bool :=
  tr.all fun e =>
    match e with
    | .backupCall _ => false
    | .storeCall _ => false
    | _ => true

/-- `true` iff the trace contains no database operation at all: no fetch,
no connection, no handler invocation, no backup, no store. -/
def noDbEvents (tr : List Event) : Bool :=
  tr.all fun e =>
    match e with
    | .fetchCall _ => false
    | .connect => false
    | .handlerCall _ => false
    | .backupCall _ => false
    | .storeCall _ => false
    | _ => true

/-! ### Helper lemmas -/

/-- An `acquire_lock` call that returns `true` implies the lock slot was
empty, the call was fault-free, and the new state holds the fresh lease. -/
lemma acquire_success (st : S3State) (now : Nat) (f : Option PyErr)
    (st' : S3State) (h : acquire_lock st now f = .ok (true, st')) :
    st.lock = none ∧
    st' = { st with lock := some { body := lockedBody, created := now } } ∧
    f = none := by
  cases f with
  | some e =>
    cases e with
    | clientError code =>
      by_cases hc : code = "PreconditionFailed" <;>
        simp [acquire_lock, put_if_none_match, hc] at h
    | typeError => simp [acquire_lock, put_if_none_match] at h
    | otherError msg => simp [acquire_lock, put_if_none_match] at h
  | none =>
    cases hl : st.lock with
    | some l => simp [acquire_lock, put_if_none_match, hl] at h
    | none =>
      simp [acquire_lock, put_if_none_match, hl] at h
      exact ⟨rfl, h.symm, rfl⟩

/-- An `acquire_lock` call that returns `false` leaves the bucket
unchanged. -/
lemma acquire_false (st : S3State) (now : Nat) (f : Option PyErr)
    (st' : S3State) (h : acquire_lock st now f = .ok (false, st')) :
    st' = st := by
  cases f with
  | some e =>
    cases e with
    | clientError code =>
      by_cases hc : code = "PreconditionFailed" <;>
        simp [acquire_lock, put_if_none_match, hc] at h
      exact h.symm
    | typeError => simp [acquire_lock, put_if_none_match] at h
    | otherError msg => simp [acquire_lock, put_if_none_match] at h
  | none =>
    cases hl : st.lock with
    | some l =>
      simp [acquire_lock, put_if_none_match, hl] at h
      exact h.symm
    | none => simp [acquire_lock, put_if_none_match, hl] at h

/-- Against a bucket whose lock slot is occupied, `acquire_lock` either
returns `false` with the bucket unchanged or raises. -/
lemma acquire_locked_cases (st : S3State) (l : LeaseObj)
    (hl : st.lock = some l) (t : Nat) (f : Option PyErr) :
    acquire_lock st t f = .ok (false, st) ∨
    ∃ e, acquire_lock st t f = .error e := by
  cases f with
  | some e =>
    cases e with
    | clientError code =>
      by_cases hc : code = "PreconditionFailed"
      · left; simp [acquire_lock, put_if_none_match, hc]
      · right
        exact ⟨.clientError code, by simp [acquire_lock, put_if_none_match, hc]⟩
    | typeError =>
      right; exact ⟨.typeError, by simp [acquire_lock, put_if_none_match]⟩
    | otherError msg =>
      right; exact ⟨.otherError msg, by simp [acquire_lock, put_if_none_match]⟩
  | none =>
    left; simp [acquire_lock, put_if_none_match, hl]

/-- No attempt of a run that starts against an occupied lock slot ever
returns `true`. -/
lemma acquireRun_locked (st : S3State) (l : LeaseObj) (hl : st.lock = some l) :
    ∀ attempts : List (Nat × Option PyErr),
      (acquireRun st attempts).count (some true) = 0 := by
  intro attempts
  induction attempts with
  | nil => simp [acquireRun]
  | cons a rest ih =>
    obtain ⟨t, f⟩ := a
    rcases acquire_locked_cases st l hl t f with hA | ⟨e, hA⟩ <;>
      simp [acquireRun, hA, List.count_cons, ih]

/-- In any sequence of `acquire_lock` attempts with no intervening
release, at most one attempt returns `true`. -/
lemma acquireRun_count_le_one :
    ∀ (attempts : List (Nat × Option PyErr)) (st : S3State),
      (acquireRun st attempts).count (some true) ≤ 1
  | [], st => by simp [acquireRun]
  | (t, f) :: rest, st => by
    cases hA : acquire_lock st t f with
    | error e =>
      simpa [acquireRun, hA, List.count_cons] using
        acquireRun_count_le_one rest st
    | ok p =>
      obtain ⟨b, st'⟩ := p
      cases b with
      | false =>
        have hst : st' = st := acquire_false st t f st' hA
        subst hst
        simpa [acquireRun, hA, List.count_cons] using
          acquireRun_count_le_one rest st'
      | true =>
        obtain ⟨-, hst, -⟩ := acquire_success st t f st' hA
        have hz : (acquireRun st' rest).count (some true) = 0 :=
          acquireRun_locked st' { body := lockedBody, created := t }
            (by rw [hst]) rest
        simp [acquireRun, hA, List.count_cons, hz]

/-! ### Claims -/

/-- C1: for all pairs (indeed, all sequences) of concurrent acquire
attempts against the lease key with no intervening release, at most one
attempt returns success; and creation is compare-and-swap: an acquire
succeeds only when no lease object exists, installing exactly one lease
object. -/
theorem C1_mutual_exclusion (st : S3State)
    (attempts : List (Nat × Option PyErr)) :
    (acquireRun st attempts).count (some true) ≤ 1 ∧
    (∀ now f st', acquire_lock st now f = .ok (true, st') →
      st.lock = none ∧
      st' = { st with lock := some { body := lockedBody, created := now } }) := by
  refine ⟨acquireRun_count_le_one attempts st, ?_⟩
  intro now f st' h
  obtain ⟨h1, h2, -⟩ := acquire_success st now f st' h
  exact ⟨h1, h2⟩

/-- Witness for C1: two back-to-back attempts on a free bucket yield at
most one success, and the concrete successful acquire happened on an
empty lock slot. -/
theorem C1_mutual_exclusion_check :
    (acquireRun stFree [(10, none), (20, none)]).count (some true) ≤ 1 ∧
    (stFree.lock = none ∧
      { stFree with lock := some { body := lockedBody, created := 10 } } =
      { stFree with lock := some { body := lockedBody, created := 10 } }) :=
  ⟨(C1_mutual_exclusion stFree [(10, none), (20, none)]).1,
   (C1_mutual_exclusion stFree [(10, none), (20, none)]).2 10 none
      { stFree with lock := some { body := lockedBody, created := 10 } } rfl⟩

/-- C5: the program reads `LOCK_TTL` from the environment as a string and
never converts it, so `is_lock_stale` crashes with a `TypeError` instead
of implementing the claimed threshold: at `now = T + ttl + 1` (and also at
`now = T + ttl - 1`, with `T = 1000`, `ttl = 120`) the comparison
`age > LOCK_TTL` raises.  With an integer TTL the very same code does
satisfy the claimed threshold, showing the slip is the missing `int()`
conversion. -/
theorem C5_staleness_threshold_eval :
    (is_lock_stale stHeld 1121 (.str "120") none = .error .typeError ∧
     is_lock_stale stHeld 1119 (.str "120") none = .error .typeError) ∧
    (is_lock_stale stHeld 1121 (.int 120) none = .ok true ∧
     is_lock_stale stHeld 1119 (.int 120) none = .ok false) :=
  ⟨⟨rfl, rfl⟩, ⟨rfl, rfl⟩⟩

/-- C7: `acquire_lock` returns `true` when the lock slot is empty,
installing a lease whose `created` metadata is the current time; returns
`false` when a lease object already exists (precondition failed); and any
other storage-layer failure propagates as an error rather than being
treated as `false`. -/
theorem C7_acquire_contract (st : S3State) (now : Nat) :
    (st.lock = none →
      acquire_lock st now none =
        .ok (true, { st with lock := some { body := lockedBody, created := now } })) ∧
    (∀ l, st.lock = some l → acquire_lock st now none = .ok (false, st)) ∧
    (∀ e, e ≠ PyErr.clientError "PreconditionFailed" →
      acquire_lock st now (some e) = .error e) := by
  refine ⟨?_, ?_, ?_⟩
  · intro h; simp [acquire_lock, put_if_none_match, h]
  · intro l h; simp [acquire_lock, put_if_none_match, h]
  · intro e he
    cases e with
    | clientError code =>
      have hc : code ≠ "PreconditionFailed" := fun hcc => he (by rw [hcc])
      simp [acquire_lock, put_if_none_match, hc]
    | typeError => rfl
    | otherError msg => rfl

/-- Witness for C7: the three contract clauses evaluated on concrete
buckets and a concrete non-precondition fault. -/
theorem C7_acquire_contract_check :
    acquire_lock stFree 2000 none =
      .ok (true, { stFree with lock := some { body := lockedBody, created := 2000 } }) ∧
    acquire_lock stHeld 2000 none = .ok (false, stHeld) ∧
    acquire_lock stFree 2000 (some (.otherError "boom")) =
      .error (.otherError "boom") :=
  ⟨(C7_acquire_contract stFree 2000).1 rfl,
   (C7_acquire_contract stHeld 2000).2.1 { body := lockedBody, created := 1000 } rfl,
   (C7_acquire_contract stFree 2000).2.2 (.otherError "boom") (by decide)⟩

/-- A `make_s3_backup` call that returns at all returns `True`. -/
lemma make_s3_backup_ok_true (st : S3State) (day : Nat) (fault : Option PyErr)
    (b : Bool) (st' : S3State)
    (h : make_s3_backup st day fault = .ok (b, st')) : b = true := by
  cases fault with
  | some e => simp [make_s3_backup] at h
  | none =>
    cases hc : st.canonical with
    | none => simp [make_s3_backup, hc] at h
    | some bytes =>
      simp [make_s3_backup, hc] at h
      exact h.1

/-- C10: `make_s3_backup` has no execution returning `false` — every run
either returns `true` or propagates an error — so the caller's explicit
false branch in `put_db_to_s3` (the "ERROR CANT MAKE BACKUP" print
without an exception) is unreachable. -/
theorem C10_backup_never_false (st : S3State) (day : Nat)
    (fault : Option PyErr) :
    (∀ b st', make_s3_backup st day fault = .ok (b, st') → b = true) ∧
    (∀ localContent storeFault,
      Event.printed "ERROR CANT MAKE BACKUP" ∉
        (put_db_to_s3 st localContent day fault storeFault).1) := by
  refine ⟨fun b st' h => make_s3_backup_ok_true st day fault b st' h, ?_⟩
  intro localContent storeFault
  unfold put_db_to_s3
  cases hB : make_s3_backup st day fault with
  | error e => simp
  | ok p =>
    obtain ⟨b, st1⟩ := p
    have hb : b = true := make_s3_backup_ok_true st day fault b st1 hB
    subst hb
    cases storeFault <;> simp

/-- Witness for C10: the backup on a concrete bucket returns `true`, and
the concrete `put_db_to_s3` run never prints the unreachable error. -/
theorem C10_backup_never_false_check :
    true = true ∧
    Event.printed "ERROR CANT MAKE BACKUP" ∉
      (put_db_to_s3 stFree sampleBytes 5 none none).1 :=
  ⟨(C10_backup_never_false stFree 5 none).1 true
      { stFree with backups := [(5, sampleBytes)] } rfl,
   (C10_backup_never_false stFree 5 none).2 sampleBytes none⟩

/-- A session whose acquire raised produces no events and leaves the
bucket unchanged. -/
lemma runSession_error_case (env : Env) (st : S3State) (e : PyErr)
    (h : acquire_lock st env.now env.acquireFault = .error e) :
    (runSession env st).trace = [] ∧ (runSession env st).state = st := by
  simp [runSession, h]

/-- The three possible traces of a denied session: staleness check raised,
stale branch (with auto-release), and retry-later branch. -/
lemma runSession_denied_cases (env : Env) (st st1 : S3State)
    (h : acquire_lock st env.now env.acquireFault = .ok (false, st1)) :
    (runSession env st).trace = [.printed "Lock already held", .staleCheck none] ∨
    (runSession env st).trace =
      [.printed "Lock already held", .staleCheck (some true),
       .printed "lock is stale, releasing... try again", .releaseCall] ∨
    (runSession env st).trace =
      [.printed "Lock already held", .staleCheck (some false),
       .printed "Database in S3 is in use/locked, try again in 120 seconds"] := by
  cases hS : is_lock_stale st1 env.now env.lockTTL env.headFault with
  | error e => left; simp [runSession, h, hS]
  | ok b =>
    cases b with
    | true => right; left; simp [runSession, h, hS]
    | false => right; right; simp [runSession, h, hS]

/-- The three possible traces of a `put_db_to_s3` call: backup raised
(no store), backup succeeded and the upload raised, backup succeeded and
the upload succeeded. -/
lemma put_db_trace_cases (st : S3State) (lc : Bytes) (day : Nat)
    (bF sF : Option PyErr) :
    (put_db_to_s3 st lc day bF sF).1 = [.backupCall none] ∨
    (put_db_to_s3 st lc day bF sF).1 =
      [.backupCall (some true), .storeCall false] ∨
    (put_db_to_s3 st lc day bF sF).1 =
      [.backupCall (some true), .storeCall true] := by
  cases hB : make_s3_backup st day bF with
  | error e => left; simp [put_db_to_s3, hB]
  | ok p =>
    obtain ⟨b, st1⟩ := p
    have hb : b = true := make_s3_backup_ok_true st day bF b st1 hB
    subst hb
    cases sF with
    | some e => right; left; simp [put_db_to_s3, hB]
    | none => right; right; simp [put_db_to_s3, hB]

/-- The six possible traces of a session that acquired the lease: fetch
raised; handler raised; handler reported no mutation; mutation with
backup raised; mutation with upload raised; full success. -/
lemma runSession_acquired_cases (env : Env) (st st1 : S3State)
    (h : acquire_lock st env.now env.acquireFault = .ok (true, st1)) :
    (runSession env st).trace = [.fetchCall false, .releaseCall] ∨
    (runSession env st).trace =
      [.fetchCall true, .connect, .handlerCall none, .releaseCall] ∨
    (runSession env st).trace =
      [.fetchCall true, .connect, .handlerCall (some false), .releaseCall] ∨
    (runSession env st).trace =
      [.fetchCall true, .connect, .handlerCall (some true), .closeConn,
       .backupCall none, .releaseCall] ∨
    (runSession env st).trace =
      [.fetchCall true, .connect, .handlerCall (some true), .closeConn,
       .backupCall (some true), .storeCall false, .releaseCall] ∨
    (runSession env st).trace =
      [.fetchCall true, .connect, .handlerCall (some true), .closeConn,
       .backupCall (some true), .storeCall true, .releaseCall] := by
  cases hF : fetch_db_from_s3 st1 env.fetchFault with
  | error e => left; simp [runSession, h, hF]
  | ok file =>
    cases hH : env.handler with
    | error e => right; left; simp [runSession, h, hF, hH]
    | ok mutated =>
      cases mutated with
      | false => right; right; left; simp [runSession, h, hF, hH]
      | true =>
        rcases hP : put_db_to_s3 st1 env.localAfterHandler env.day
            env.backupFault env.storeFault with ⟨ptr, st2, err?⟩
        have hPtr := put_db_trace_cases st1 env.localAfterHandler env.day
            env.backupFault env.storeFault
        rw [hP] at hPtr
        rcases hPtr with h3 | h3 | h3
        · right; right; right; left
          simp [runSession, h, hF, hH, hP, h3]
        · right; right; right; right; left
          simp [runSession, h, hF, hH, hP, h3]
        · right; right; right; right; right
          simp [runSession, h, hF, hH, hP, h3]

/-- C2: every execution path of the session orchestrator that begins with
a successful acquire — normal completion, handler failure, fetch failure,
backup failure, store failure — invokes `release_lock` exactly once. -/
theorem C2_release_always (env : Env) (st : S3State)
    (h : ∃ st1, acquire_lock st env.now env.acquireFault = .ok (true, st1)) :
    (runSession env st).trace.count .releaseCall = 1 := by
  obtain ⟨st1, h1⟩ := h
  rcases runSession_acquired_cases env st st1 h1 with h2 | h2 | h2 | h2 | h2 | h2 <;>
    rw [h2] <;> rfl

/-- Witness for C2: the fault-free session on a free bucket releases the
lease exactly once. -/
theorem C2_release_always_check :
    (runSession envOk stFree).trace.count .releaseCall = 1 :=
  C2_release_always envOk stFree
    ⟨{ stFree with lock := some { body := lockedBody, created := 2000 } }, rfl⟩

/-- C3: in every session, a store (canonical upload) only ever happens
immediately after a backup call that returned success; and when the backup
raises, `put_db_to_s3` propagates the error without touching the
canonical object. -/
theorem C3_backup_before_store (env : Env) (st : S3State) :
    storeGatedOnBackup (runSession env st).trace = true ∧
    (∀ (st' : S3State) (lc : Bytes) (day : Nat) (bF sF : Option PyErr) e,
      make_s3_backup st' day bF = .error e →
      put_db_to_s3 st' lc day bF sF = ([.backupCall none], st', some e)) := by
  constructor
  · cases hA : acquire_lock st env.now env.acquireFault with
    | error e => rw [(runSession_error_case env st e hA).1]; rfl
    | ok p =>
      obtain ⟨b, st1⟩ := p
      cases b with
      | false =>
        rcases runSession_denied_cases env st st1 hA with h | h | h <;>
          rw [h] <;> rfl
      | true =>
        rcases runSession_acquired_cases env st st1 hA with h | h | h | h | h | h <;>
          rw [h] <;> rfl
  · intro st' lc day bF sF e hB
    simp [put_db_to_s3, hB]

/-- Witness for C3: the store gate holds on the concrete fault-free trace,
and a concrete backup failure (missing canonical object) leaves the bucket
untouched. -/
theorem C3_backup_before_store_check :
    storeGatedOnBackup (runSession envOk stFree).trace = true ∧
    put_db_to_s3 stEmpty sampleBytes 5 none none =
      ([.backupCall none], stEmpty, some (.clientError "NoSuchKey")) :=
  ⟨(C3_backup_before_store envOk stFree).1,
   (C3_backup_before_store envOk stFree).2 stEmpty sampleBytes 5 none none
      (.clientError "NoSuchKey") rfl⟩

/-- C4: if the command handler reports `mutated == false`, the session
invokes neither backup nor store, and the canonical object is unchanged
when the session ends. -/
theorem C4_no_mutation_no_store (env : Env) (st : S3State)
    (h : env.handler = .ok false) :
    noSyncEvents (runSession env st).trace = true ∧
    (runSession env st).state.canonical = st.canonical := by
  cases hA : acquire_lock st env.now env.acquireFault with
  | error e =>
    obtain ⟨h1, h2⟩ := runSession_error_case env st e hA
    rw [h1, h2]; exact ⟨rfl, rfl⟩
  | ok p =>
    obtain ⟨b, st1⟩ := p
    cases b with
    | false =>
      have hst1 : st1 = st := acquire_false st env.now env.acquireFault st1 hA
      subst hst1
      cases hS : is_lock_stale st1 env.now env.lockTTL env.headFault with
      | error e => simp [runSession, hA, hS, noSyncEvents]
      | ok b2 => cases b2 <;> simp [runSession, hA, hS, noSyncEvents, release_lock]
    | true =>
      obtain ⟨-, hst1, -⟩ :=
        acquire_success st env.now env.acquireFault st1 hA
      have hc : st1.canonical = st.canonical := by rw [hst1]
      cases hF : fetch_db_from_s3 st1 env.fetchFault with
      | error e =>
        constructor
        · simp [runSession, hA, hF, noSyncEvents]
        · simp [runSession, hA, hF, release_lock, hc]
      | ok file =>
        constructor
        · simp [runSession, hA, hF, h, noSyncEvents]
        · simp [runSession, hA, hF, h, release_lock, hc]

/-- Witness for C4: the fault-free non-mutating session performs no
backup/store and leaves the canonical object as it was. -/
theorem C4_no_mutation_no_store_check :
    noSyncEvents (runSession envNoMut stFree).trace = true ∧
    (runSession envNoMut stFree).state.canonical = stFree.canonical :=
  C4_no_mutation_no_store envNoMut stFree rfl

/-- C6 counterexample: at a concrete denied acquire whose lease is found
stale (lease created at 1000, clock 2000, integer TTL 120), the program
does not merely advise: its trace ends with an actual `release_lock`, and
the lease object is gone afterwards — refuting "never itself releases the
lease". -/
theorem C6_counterexample :
    (runSession envStale stHeld).trace =
      [.printed "Lock already held", .staleCheck (some true),
       .printed "lock is stale, releasing... try again", .releaseCall] ∧
    (runSession envStale stHeld).state.lock = none :=
  ⟨rfl, rfl⟩

/-- C6 (amended): on a denied acquire where the staleness check returns
true, the program prints "lock is stale, releasing... try again" and
itself deletes the lease object (auto-resolving staleness), then exits
normally; it performs no other operation. -/
theorem C6_stale_autorelease (env : Env) (st st1 : S3State)
    (hA : acquire_lock st env.now env.acquireFault = .ok (false, st1))
    (hS : is_lock_stale st1 env.now env.lockTTL env.headFault = .ok true) :
    (runSession env st).trace =
      [.printed "Lock already held", .staleCheck (some true),
       .printed "lock is stale, releasing... try again", .releaseCall] ∧
    (runSession env st).state.lock = none ∧
    exitCode (runSession env st) = 0 := by
  refine ⟨?_, ?_, ?_⟩ <;> simp [runSession, hA, hS, release_lock, exitCode]

/-- Witness for the amended C6 at the concrete stale configuration. -/
theorem C6_stale_autorelease_check :
    (runSession envStale stHeld).trace =
      [.printed "Lock already held", .staleCheck (some true),
       .printed "lock is stale, releasing... try again", .releaseCall] ∧
    (runSession envStale stHeld).state.lock = none ∧
    exitCode (runSession envStale stHeld) = 0 :=
  C6_stale_autorelease envStale stHeld stHeld rfl rfl

/-- C8 counterexample: at a concrete contended, non-stale configuration
(lease created at 1000, clock 2000, integer TTL 100000) the program prints
the retry-later message and performs no database operation, but the
process exit status is 0, refuting "exits with a non-zero process
status". -/
theorem C8_counterexample :
    (runSession envFresh stHeld).trace =
      [.printed "Lock already held", .staleCheck (some false),
       .printed "Database in S3 is in use/locked, try again in 120 seconds"] ∧
    noDbEvents (runSession envFresh stHeld).trace = true ∧
    exitCode (runSession envFresh stHeld) = 0 :=
  ⟨rfl, rfl, rfl⟩

/-- C8 (amended): on lease contention with a non-stale lease, the program
prints the retry-in-120-seconds message, performs no database operation
(no fetch, no connect, no handler invocation, no backup, no store), and
exits with status 0 — the process does not signal contention through a
non-zero exit status. -/
theorem C8_contention_exit (env : Env) (st st1 : S3State)
    (hA : acquire_lock st env.now env.acquireFault = .ok (false, st1))
    (hS : is_lock_stale st1 env.now env.lockTTL env.headFault = .ok false) :
    (runSession env st).trace =
      [.printed "Lock already held", .staleCheck (some false),
       .printed "Database in S3 is in use/locked, try again in 120 seconds"] ∧
    noDbEvents (runSession env st).trace = true ∧
    exitCode (runSession env st) = 0 := by
  have ht : (runSession env st).trace =
      [.printed "Lock already held", .staleCheck (some false),
       .printed "Database in S3 is in use/locked, try again in 120 seconds"] := by
    simp [runSession, hA, hS]
  refine ⟨ht, ?_, ?_⟩
  · rw [ht]; rfl
  · simp [runSession, hA, hS, exitCode]

/-- Witness for the amended C8 at the concrete contended configuration. -/
theorem C8_contention_exit_check :
    (runSession envFresh stHeld).trace =
      [.printed "Lock already held", .staleCheck (some false),
       .printed "Database in S3 is in use/locked, try again in 120 seconds"] ∧
    noDbEvents (runSession envFresh stHeld).trace = true ∧
    exitCode (runSession envFresh stHeld) = 0 :=
  C8_contention_exit envFresh stHeld stHeld rfl rfl

/-- C9: a successful fetch hands back the canonical object's full bytes
with the local file flushed, and in every session trace the database
connection is opened only immediately after a successfully returned
fetch — never before, never without one. -/
theorem C9_fetch_then_connect (st : S3State) (bytes : Bytes)
    (h : st.canonical = some bytes) :
    fetch_db_from_s3 st none = .ok { content := bytes, flushed := true } ∧
    (∀ (env : Env) (st0 : S3State),
      connectImmediatelyAfterFetch (runSession env st0).trace = true) := by
  constructor
  · simp [fetch_db_from_s3, h]
  · intro env st0
    cases hA : acquire_lock st0 env.now env.acquireFault with
    | error e => rw [(runSession_error_case env st0 e hA).1]; rfl
    | ok p =>
      obtain ⟨b, st1⟩ := p
      cases b with
      | false =>
        rcases runSession_denied_cases env st0 st1 hA with h2 | h2 | h2 <;>
          rw [h2] <;> rfl
      | true =>
        rcases runSession_acquired_cases env st0 st1 hA with
          h2 | h2 | h2 | h2 | h2 | h2 <;> rw [h2] <;> rfl

/-- Witness for C9: the concrete fetch returns the canonical bytes fully
flushed, and the concrete fault-free session connects only after its
fetch. -/
theorem C9_fetch_then_connect_check :
    fetch_db_from_s3 stFree none = .ok { content := sampleBytes, flushed := true } ∧
    connectImmediatelyAfterFetch (runSession envOk stFree).trace = true :=
  ⟨(C9_fetch_then_connect stFree sampleBytes rfl).1,
   (C9_fetch_then_connect stFree sampleBytes rfl).2 envOk stFree⟩

end Dirt
